import Mathlib

/-!
Verification development for the edge authentication gateway
(Lambda@Edge viewer-request handler for Cognito JWT authentication).

The handler source is a TypeScript function; this file gives a shallow
embedding of its data model and operations.  JavaScript runtime
primitives that the handler uses (`encodeURIComponent`,
`URLSearchParams`, the `cookie` parser, chained global single-character
regex `replace`) are modelled as executable Lean functions over
`List Char` so every definition kernel-evaluates on concrete inputs.
Network effects (SSM parameter fetch, JWKS key fetch, RSA signature
checking, the current clock) are modelled as oracle fields of an
environment record, and the module-level mutable config cache is
modelled by explicit state passing.
-/

namespace EdgeAuth

/-! ## String utilities modelling the JavaScript runtime primitives -/

/-- Split a character list at every occurrence of the separator
character, keeping empty segments (like JavaScript `split`). -/
def splitListOnChar (sep : Char) : List Char → List (List Char)
  | [] => [[]]
  | c :: cs =>
    match splitListOnChar sep cs with
    | [] => [[]]
    | seg :: segs => if c = sep then [] :: seg :: segs else (c :: seg) :: segs

/-- Split a string at every occurrence of a separator character. -/
def splitStrOnChar (sep : Char) (s : String) : List String :=
  (splitListOnChar sep s.data).map String.mk

/-- JavaScript `String.prototype.trim` whitespace test (ASCII subset
that can occur in header values). -/
def isTrimWs (c : Char) : Bool :=
  c = ' ' ∨ c = '\t' ∨ c = '\n' ∨ c = '\r'

/-- JavaScript `String.prototype.trim` over both ends. -/
def trimStr (s : String) : String :=
  String.mk (((s.data.dropWhile isTrimWs).reverse.dropWhile isTrimWs).reverse)

/-- Contiguous-sublist test on character lists. -/
def listInfix (sub : List Char) : List Char → Bool
  | [] => sub.isEmpty
  | c :: cs => sub.isPrefixOf (c :: cs) || listInfix sub cs

/-- Substring containment test. -/
def strContains (s sub : String) : Bool :=
  listInfix sub.data s.data

/-- Suffix test. -/
def strEndsWith (s suffix : String) : Bool :=
  suffix.data.isSuffixOf s.data

/-- Global replacement of a single character by a string: the meaning
of the handler's `raw.replace(/c/g, repl)` calls. -/
def replaceChar (s : String) (c : Char) (repl : String) : String :=
  s.data.foldl (fun acc ch => if ch = c then acc ++ repl else acc.push ch) ""

/-- Uppercase hexadecimal digit for a value below 16. -/
def hexDigitChar (n : Nat) : Char :=
  if n < 10 then Char.ofNat (48 + n) else Char.ofNat (55 + n)

/-- Numeric value of a hexadecimal digit character, if any. -/
def hexDigitVal (c : Char) : Option Nat :=
  if 48 ≤ c.toNat ∧ c.toNat ≤ 57 then some (c.toNat - 48)
  else if 65 ≤ c.toNat ∧ c.toNat ≤ 70 then some (c.toNat - 55)
  else if 97 ≤ c.toNat ∧ c.toNat ≤ 102 then some (c.toNat - 87)
  else none

/-- `%XY` encoding of one byte, uppercase hex. -/
def percentEncodeByte (b : UInt8) : String :=
  String.mk ['%', hexDigitChar (b.toNat / 16), hexDigitChar (b.toNat % 16)]

/-- The characters `encodeURIComponent` leaves unescaped:
ASCII alphanumerics and `- _ . ! ~ * ' ( )`. -/
def isUriUnreserved (c : Char) : Bool :=
  c.isAlphanum ∨ c = '-' ∨ c = '_' ∨ c = '.' ∨ c = '!' ∨ c = '~' ∨
    c = '*' ∨ c = Char.ofNat 39 ∨ c = '(' ∨ c = ')'

/-- JavaScript `encodeURIComponent`: unreserved characters pass
through, every other character becomes the `%XY` encoding of its UTF-8
bytes. -/
def encodeURIComponent (s : String) : String :=
  s.data.foldl
    (fun acc c =>
      if isUriUnreserved c then acc.push c
      else acc ++ String.join ((String.utf8EncodeChar c).map percentEncodeByte))
    ""

/-- UTF-8 decoding of a byte list, emitting U+FFFD for malformed
sequences; the fuel argument bounds recursion by the list length. -/
def utf8DecodeAux : Nat → List UInt8 → List Char
  | 0, _ => []
  | _ + 1, [] => []
  | fuel + 1, b :: rest =>
    let n := b.toNat
    let repl : Char := Char.ofNat 0xFFFD
    let isCont : UInt8 → Bool := fun x => 0x80 ≤ x.toNat ∧ x.toNat < 0xC0
    if n < 0x80 then Char.ofNat n :: utf8DecodeAux fuel rest
    else if n < 0xC2 then repl :: utf8DecodeAux fuel rest
    else if n < 0xE0 then
      match rest with
      | b2 :: rest2 =>
        if isCont b2 then
          Char.ofNat ((n - 0xC0) * 64 + (b2.toNat - 0x80)) :: utf8DecodeAux fuel rest2
        else repl :: utf8DecodeAux fuel rest
      | [] => [repl]
    else if n < 0xF0 then
      match rest with
      | b2 :: b3 :: rest3 =>
        if isCont b2 ∧ isCont b3 then
          Char.ofNat ((n - 0xE0) * 4096 + (b2.toNat - 0x80) * 64 + (b3.toNat - 0x80)) ::
            utf8DecodeAux fuel rest3
        else repl :: utf8DecodeAux fuel rest
      | _ => [repl]
    else if n < 0xF5 then
      match rest with
      | b2 :: b3 :: b4 :: rest4 =>
        if isCont b2 ∧ isCont b3 ∧ isCont b4 then
          Char.ofNat ((n - 0xF0) * 262144 + (b2.toNat - 0x80) * 4096 +
              (b3.toNat - 0x80) * 64 + (b4.toNat - 0x80)) :: utf8DecodeAux fuel rest4
        else repl :: utf8DecodeAux fuel rest
      | _ => [repl]
    else repl :: utf8DecodeAux fuel rest

/-- UTF-8 decoding of a byte list into a string. -/
def utf8Decode (bs : List UInt8) : String :=
  String.mk (utf8DecodeAux bs.length bs)

/-- Byte-level `application/x-www-form-urlencoded` decoding step used
by `URLSearchParams`: `+` becomes a space, a valid `%XY` escape becomes
the byte `XY`, and anything else contributes its UTF-8 bytes
(malformed escapes are kept literally, as the platform does). -/
def formDecodeBytesAux : Nat → List Char → List UInt8
  | 0, _ => []
  | _ + 1, [] => []
  | fuel + 1, c :: cs =>
    if c = '+' then (32 : UInt8) :: formDecodeBytesAux fuel cs
    else if c = '%' then
      match cs with
      | h1 :: h2 :: cs2 =>
        match hexDigitVal h1, hexDigitVal h2 with
        | some v1, some v2 => UInt8.ofNat (v1 * 16 + v2) :: formDecodeBytesAux fuel cs2
        | _, _ => (String.utf8EncodeChar c) ++ formDecodeBytesAux fuel cs
      | _ => (String.utf8EncodeChar c) ++ formDecodeBytesAux fuel cs
    else (String.utf8EncodeChar c) ++ formDecodeBytesAux fuel cs

/-- `URLSearchParams` percent-plus decoding of one component. -/
def formDecode (s : String) : String :=
  utf8Decode (formDecodeBytesAux s.data.length s.data)

/-- Strict percent decoding as performed by `decodeURIComponent`
(no `+` handling); `none` models the thrown `URIError` on a malformed
escape sequence. -/
def percentDecodeBytesStrict : Nat → List Char → Option (List UInt8)
  | 0, _ => some []
  | _ + 1, [] => some []
  | fuel + 1, c :: cs =>
    if c = '%' then
      match cs with
      | h1 :: h2 :: cs2 =>
        match hexDigitVal h1, hexDigitVal h2 with
        | some v1, some v2 =>
          (percentDecodeBytesStrict fuel cs2).map (UInt8.ofNat (v1 * 16 + v2) :: ·)
        | _, _ => none
      | _ => none
    else (percentDecodeBytesStrict fuel cs).map (String.utf8EncodeChar c ++ ·)

/-- `decodeURIComponent`, returning `none` where JavaScript throws. -/
def decodeURIComponentOpt (s : String) : Option String :=
  (percentDecodeBytesStrict s.data.length s.data).map utf8Decode

/-! ## CloudFront boundary types

`CognitoConfig`, `CloudFrontRequest` and the synthesized-response shape
follow the TypeScript declarations; a CloudFront header map is a JS
object keyed by lowercase header name whose values are arrays of
`{ key, value }` records, modelled as an association list. -/

structure HeaderEntry where
  key : String
  value : String
deriving DecidableEq, Repr

/-- A CloudFront header map. -/
abbrev Headers := List (String × List HeaderEntry)

/-- JS property read `headers[name]`, `undefined` as `none`. -/
def getHeader (hs : Headers) (name : String) : Option (List HeaderEntry) :=
  (hs.find? (fun p => p.1 = name)).map (fun p => p.2)

/-- JS property assignment `headers[name] = v`: overwrite in place when
the key exists, append otherwise. -/
def setHeader (hs : Headers) (name : String) (v : List HeaderEntry) : Headers :=
  if hs.any (fun p => p.1 = name) then
    hs.map (fun p => if p.1 = name then (name, v) else p)
  else hs ++ [(name, v)]

/-- JS property deletion, used only in statements about the
missing-cookie case. -/
def removeHeader (hs : Headers) (name : String) : Headers :=
  hs.filter (fun p => ¬ p.1 = name)

structure CloudFrontRequest where
  uri : String
  querystring : String
  headers : Headers
deriving DecidableEq, Repr

structure CloudFrontResponse where
  status : String
  statusDescription : String
  headers : Headers
  body : Option String
deriving DecidableEq, Repr

/-- The handler's result type: either the (possibly mutated) request,
forwarded toward origin, or a synthesized response. -/
inductive CloudFrontRequestResult where
  | request (r : CloudFrontRequest)
  | response (r : CloudFrontResponse)
deriving DecidableEq, Repr

structure CognitoConfig where
  userPoolId : String
  clientId : String
  region : String
  cognitoDomainPrefix : String
  appDomain : String
deriving DecidableEq, Repr

/-! ## Cookie parsing (the `cookie` npm package, as used here) -/

/-- Parse one `key=value` cookie segment: split at the first `=`
(a segment without `=` is skipped), trim both sides, strip one pair of
surrounding double quotes from the value, and percent-decode the value
when `decodeURIComponent` would succeed (falling back to the raw value
where it would throw). -/
def parseCookiePair (seg : String) : Option (String × String) :=
  match splitListOnChar '=' seg.data with
  | [] => none
  | [_] => none
  | k :: v1 :: vrest =>
    let key := trimStr (String.mk k)
    let rawVal := trimStr (String.intercalate "=" ((v1 :: vrest).map String.mk))
    let unquoted :=
      if rawVal.data.length ≥ 2 ∧ rawVal.data.head? = some '"' ∧
          rawVal.data.getLast? = some '"' then
        String.mk (rawVal.data.drop 1 |>.dropLast)
      else rawVal
    some (key, (decodeURIComponentOpt unquoted).getD unquoted)

/-- `cookie.parse`: split the header on `;`, parse each pair, first
occurrence of a name wins. -/
def parseCookies (header : String) : List (String × String) :=
  (splitStrOnChar ';' header).foldl
    (fun acc seg =>
      match parseCookiePair seg with
      | some (k, v) => if acc.any (fun p => p.1 = k) then acc else acc ++ [(k, v)]
      | none => acc)
    []

/-- First value bound to a name in a parsed pair list. -/
def pairsLookup (ps : List (String × String)) (name : String) : Option String :=
  match ps.find? (fun p => p.1 = name) with
  | some p => some p.2
  | none => none

/-! ## URLSearchParams -/

/-- `new URLSearchParams(qs)`: split the raw string on `&`, drop empty
segments, split each segment at the first `=` (missing `=` means an
empty value), and form-decode names and values. -/
def parseURLSearchParams (qs : String) : List (String × String) :=
  (splitStrOnChar '&' qs).foldl
    (fun acc seg =>
      if seg = "" then acc
      else
        match splitListOnChar '=' seg.data with
        | [] => acc
        | [n] => acc ++ [(formDecode (String.mk n), "")]
        | n :: v1 :: vrest =>
          acc ++ [(formDecode (String.mk n),
                   formDecode (String.intercalate "=" ((v1 :: vrest).map String.mk)))])
    []

/-! ## JWT model

`jsonwebtoken`'s `decode`/`verify` and the JWKS client are modelled
over an oracle environment: `decode` gives the structural parse of a
compact JWS, `getSigningKey` is the (cached, possibly failing) JWKS
lookup by key id, `verifySignature` is the cryptographic check of the
token against a public key, and `now` is the clock used by the expiry
check. -/

structure JwtHeader where
  kid : Option String
deriving DecidableEq, Repr

structure JwtPayload where
  iss : Option String
  aud : Option String
  exp : Option Int
  email : Option String
deriving DecidableEq, Repr

structure DecodedJwt where
  header : JwtHeader
  payload : JwtPayload
deriving DecidableEq, Repr

inductive EdgeError where
  | envVarMissing
  | ssmParamMissing (name : String)
  | ssmTransport (msg : String)
  | configParse (msg : String)
  | invalidTokenFormat
  | noKidInHeader
  | keyFetchFailed (msg : String)
  | signatureInvalid
  | tokenExpired
  | audienceMismatch
  | issuerMismatch
deriving DecidableEq, Repr

structure JwtEnv where
  decode : String → Option DecodedJwt
  getSigningKey : String → Except EdgeError String
  verifySignature : String → String → Bool
  now : Int

/-- `jwt.verify(token, publicKey, { issuer, audience })`: structural
decode, signature check, then expiry (when an `exp` claim is present),
audience and issuer equality against the caller-supplied expected
values; returns the payload claims on success. -/
def jwtVerify (env : JwtEnv) (token publicKey issuer audience : String) :
    Except EdgeError JwtPayload :=
  match env.decode token with
  | none => .error .invalidTokenFormat
  | some d =>
    let expired : Bool :=
      match d.payload.exp with
      | some e => decide (env.now ≥ e)
      | none => false
    if ¬ env.verifySignature token publicKey then .error .signatureInvalid
    else if expired then .error .tokenExpired
    else if ¬ d.payload.aud = some audience then .error .audienceMismatch
    else if ¬ d.payload.iss = some issuer then .error .issuerMismatch
    else .ok d.payload

/-- The issuer URL the handler derives from the loaded config. -/
def expectedIssuer (config : CognitoConfig) : String :=
  "https://cognito-idp." ++ config.region ++ ".amazonaws.com/" ++ config.userPoolId

/-- `verifyToken`: structural decode, `kid` extraction, JWKS key
resolution, then `jwt.verify` against the issuer URL derived from the
config and the configured client id as audience. -/
def verifyToken (env : JwtEnv) (token : String) (config : CognitoConfig) :
    Except EdgeError JwtPayload :=
  match env.decode token with
  | none => .error .invalidTokenFormat
  | some decoded =>
    match decoded.header.kid with
    | none => .error .noKidInHeader
    | some kid =>
      match env.getSigningKey kid with
      | .error e => .error e
      | .ok publicKey =>
        jwtVerify env token publicKey (expectedIssuer config) config.clientId

/-- `extractToken`: read the first `cookie` header value, parse it, and
look up the cookie named `CognitoIdentityServiceProvider.<clientId>.idToken`. -/
def extractToken (request : CloudFrontRequest) (config : CognitoConfig) :
    Option String :=
  match (getHeader request.headers "cookie").bind List.head? with
  | none => none
  | some entry =>
    pairsLookup (parseCookies entry.value)
      ("CognitoIdentityServiceProvider." ++ config.clientId ++ ".idToken")

/-! ## Response builders -/

/-- `escapeHtml`: the chained global single-character replacements
`&`→`&amp;`, `<`→`&lt;`, `>`→`&gt;`, `"`→`&quot;`, `'`→`&#39;`,
applied in that order. -/
def escapeHtml (raw : String) : String :=
  replaceChar
    (replaceChar
      (replaceChar
        (replaceChar
          (replaceChar raw '&' "&amp;")
          '<' "&lt;")
        '>' "&gt;")
      '"' "&quot;")
    (Char.ofNat 39) "&#39;"

/-- `JSON.stringify` restricted to strings, as used to embed config
values in the callback page script. -/
def jsonStringifyString (s : String) : String :=
  "\"" ++
    s.data.foldl
      (fun acc c =>
        if c = '"' then acc ++ "\\\""
        else if c = '\\' then acc ++ "\\\\"
        else if c = Char.ofNat 10 then acc ++ "\\n"
        else if c = Char.ofNat 13 then acc ++ "\\r"
        else if c = Char.ofNat 9 then acc ++ "\\t"
        else if c.toNat < 32 then
          acc ++ "\\u00" ++ String.mk [hexDigitChar (c.toNat / 16), hexDigitChar (c.toNat % 16)]
        else acc.push c)
      "" ++
  "\""

/-- `redirectToLogin`: the 302 login redirect, whose `state` parameter
is the percent-encoding of the full original URL
(`https://` + app domain + path + optional query string). -/
def redirectToLogin (request : CloudFrontRequest) (config : CognitoConfig) :
    CloudFrontRequestResult :=
  let originalUrl :=
    "https://" ++ config.appDomain ++ request.uri ++
      (if ¬ request.querystring = "" then "?" ++ request.querystring else "")
  let loginUrl :=
    "https://" ++ config.cognitoDomainPrefix ++ ".auth." ++ config.region ++
      ".amazoncognito.com/oauth2/authorize" ++
    "?client_id=" ++ config.clientId ++
    "&response_type=token" ++
    "&scope=openid+email+profile" ++
    "&redirect_uri=https://" ++ config.appDomain ++ "/oauth2/callback" ++
    "&state=" ++ encodeURIComponent originalUrl
  .response
    { status := "302"
      statusDescription := "Found"
      headers :=
        [("location", [{ key := "Location", value := loginUrl }]),
         ("cache-control", [{ key := "Cache-Control", value := "no-store" }])]
      body := none }

/-- Body of the 400 callback error page, already-escaped values
substituted into the fixed template. -/
def callbackErrorBody (safeError safeDesc : String) : String :=
  "<!DOCTYPE html><html><head><meta charset=\"utf-8\"><title>Authentication Error</title></head><body><h1>Authentication Error</h1><p>" ++
    safeError ++ (if ¬ safeDesc = "" then ": " ++ safeDesc else "") ++
    "</p><p><a href=\"/\">Return to home</a></p></body></html>"

/-- Body of the 200 callback page: the client-side script that reads
the URL fragment, stores tokens in cookies and navigates to the
`state` target (braces and apostrophes appear as `\x7b`, `\x7d`,
`\x27` escapes). -/
def callbackSuccessHtml (config : CognitoConfig) : String :=
  let fallbackUrl := "https://" ++ config.appDomain ++ "/"
  "<!DOCTYPE html>\n<html lang=\"en\">\n<head>\n  <meta charset=\"utf-8\">\n  <title>Signing in...</title>\n  <style>\n    body \x7b font-family: system-ui, sans-serif; display: flex; justify-content: center; align-items: center; height: 100vh; margin: 0; background: #f4f6f9; \x7d\n    .card \x7b background: #fff; border-radius: 8px; padding: 40px 48px; box-shadow: 0 2px 12px rgba(0,0,0,.1); text-align: center; \x7d\n    .spinner \x7b width: 36px; height: 36px; border: 3px solid #e0e0e0; border-top-color: #2563eb; border-radius: 50%; animation: spin .8s linear infinite; margin: 16px auto; \x7d\n    @keyframes spin \x7b to \x7b transform: rotate(360deg); \x7d \x7d\n    .error \x7b color: #dc2626; margin-top: 16px; \x7d\n  </style>\n</head>\n<body>\n  <div class=\"card\">\n    <h2>Completing sign-in&hellip;</h2>\n    <div id=\"spinner\" class=\"spinner\"></div>\n    <p id=\"status\">Processing authentication…</p>\n    <div id=\"err\" class=\"error\" style=\"display:none\"></div>\n  </div>\n  <script>\n    (function() \x7b\n      var CLIENT_ID = " ++
    jsonStringifyString config.clientId ++
    ";\n      var APP_DOMAIN = " ++
    jsonStringifyString config.appDomain ++
    ";\n      var FALLBACK_URL = " ++
    jsonStringifyString fallbackUrl ++
    ";\n\n      function setStatus(msg) \x7b document.getElementById(\x27status\x27).textContent = msg; \x7d\n      function showError(msg) \x7b\n        document.getElementById(\x27spinner\x27).style.display = \x27none\x27;\n        var el = document.getElementById(\x27err\x27);\n        el.style.display = \x27block\x27;\n        el.textContent = \x27Error: \x27 + msg;\n        el.insertAdjacentHTML(\x27beforeend\x27, \x27 <a href=\"/\">Return to home</a>\x27);\n      \x7d\n\n      try \x7b\n        var hash = window.location.hash.substring(1);\n        if (!hash) throw new Error(\x27No token data in URL fragment\x27);\n\n        var params = new URLSearchParams(hash);\n        var idToken = params.get(\x27id_token\x27);\n        if (!idToken) throw new Error(\x27Missing id_token\x27);\n\n        var accessToken = params.get(\x27access_token\x27);\n\n        // Extract \"state\" from the fragment (Cognito puts it there for implicit flow),\n        // falling back to the server-provided home URL.\n        var redirectUrl = params.get(\x27state\x27) || FALLBACK_URL;\n\n        var expires = new Date(Date.now() + 12 * 60 * 60 * 1000).toUTCString();\n        var opts = \x27; domain=.\x27 + APP_DOMAIN + \x27; path=/; secure; expires=\x27 + expires + \x27; SameSite=Lax\x27;\n        var prefix = \x27CognitoIdentityServiceProvider.\x27 + CLIENT_ID;\n\n        document.cookie = prefix + \x27.idToken=\x27 + idToken + opts;\n        if (accessToken) document.cookie = prefix + \x27.accessToken=\x27 + accessToken + opts;\n\n        setStatus(\x27Sign-in successful! Redirecting…\x27);\n        setTimeout(function() \x7b window.location.href = redirectUrl; \x7d, 800);\n      \x7d catch (e) \x7b\n        showError(e.message || String(e));\n      \x7d\n    \x7d)();\n  </script>\n</body>\n</html>"

/-- `handleOAuthCallback`: the 400 error page when the identity
provider reported an error in the query string (JS truthiness: a
missing or empty `error` parameter does not count), otherwise the 200
token-handoff page. -/
def handleOAuthCallback (request : CloudFrontRequest) (config : CognitoConfig) :
    CloudFrontRequestResult :=
  let params := parseURLSearchParams request.querystring
  let error := (pairsLookup params "error").getD ""
  if ¬ error = "" then
    let safeError := escapeHtml error
    let safeDesc := escapeHtml ((pairsLookup params "error_description").getD "")
    .response
      { status := "400"
        statusDescription := "Bad Request"
        headers := [("content-type", [{ key := "Content-Type", value := "text/html; charset=utf-8" }])]
        body := some (callbackErrorBody safeError safeDesc) }
  else
    .response
      { status := "200"
        statusDescription := "OK"
        headers :=
          [("content-type", [{ key := "Content-Type", value := "text/html; charset=utf-8" }]),
           ("cache-control", [{ key := "Cache-Control", value := "no-store" }])]
        body := some (callbackSuccessHtml config) }

/-! ## Config loader and handler

The module-level `cachedConfig` variable is modelled as explicit
state; remote effects are oracle fields of `EdgeEnv`.  `loadConfig`
additionally reports how many remote parameter-store calls the
invocation performed, so cache behaviour is statable. -/

structure WarmState where
  cachedConfig : Option CognitoConfig
deriving DecidableEq, Repr

structure EdgeEnv where
  jwt : JwtEnv
  /-- `process.env.COGNITO_CONFIG_PARAM` (absent as `none`). -/
  cognitoConfigParam : Option String
  /-- `ssm.send(GetParameterCommand)`: transport error, or the
  parameter's value (`none` when `Parameter?.Value` is absent). -/
  ssmFetch : String → Except EdgeError (Option String)
  /-- `JSON.parse` of the parameter value, cast to `CognitoConfig`. -/
  parseConfigJson : String → Except EdgeError CognitoConfig

/-- `loadConfig`: return the cached config when present; otherwise
read the parameter name from the environment (a missing or empty value
is falsy and throws), perform the single remote fetch, reject a
missing or empty parameter value, parse, and cache on success.  The
third component counts remote parameter-store calls made by this
invocation. -/
def loadConfig (env : EdgeEnv) (st : WarmState) :
    Except EdgeError CognitoConfig × WarmState × Nat :=
  match st.cachedConfig with
  | some c => (.ok c, st, 0)
  | none =>
    match env.cognitoConfigParam with
    | none => (.error .envVarMissing, st, 0)
    | some paramName =>
      if paramName = "" then (.error .envVarMissing, st, 0)
      else
        match env.ssmFetch paramName with
        | .error e => (.error e, st, 1)
        | .ok none => (.error (.ssmParamMissing paramName), st, 1)
        | .ok (some value) =>
          if value = "" then (.error (.ssmParamMissing paramName), st, 1)
          else
            match env.parseConfigJson value with
            | .error e => (.error e, st, 1)
            | .ok cfg => (.ok cfg, { cachedConfig := some cfg }, 1)

/-- The directory rewrite of the router: a path ending in `/` has
`index.html` appended before any auth decision. -/
def rewriteIndex (request : CloudFrontRequest) : CloudFrontRequest :=
  if strEndsWith request.uri "/" then
    { request with uri := request.uri ++ "index.html" }
  else request

/-- The forwarded request on verification success: the
`x-auth-email` header is assigned (overwriting any caller-supplied
value) to the payload's email claim, or `"unknown"` when absent. -/
def attachAuthEmail (request : CloudFrontRequest) (payload : JwtPayload) :
    CloudFrontRequest :=
  { request with
      headers := setHeader request.headers "x-auth-email"
        [{ key := "X-Auth-Email", value := payload.email.getD "unknown" }] }

/-- The main handler.  A result of `.error e` models an exception
propagating out of the handler (surfaced by the CDN runtime as a
generic 5xx); `.ok` carries the forwarded request or synthesized
response, paired with the possibly-updated warm state.  The
`if (not token)` truthiness test of the source treats an extracted
empty-string cookie value like a missing token. -/
def handler (env : EdgeEnv) (st : WarmState) (request : CloudFrontRequest) :
    Except EdgeError CloudFrontRequestResult × WarmState :=
  let uri := request.uri
  if uri = "/error.html" then (.ok (.request request), st)
  else if uri = "/oauth2/callback" then
    match loadConfig env st with
    | (.error e, st2, _) => (.error e, st2)
    | (.ok config, st2, _) => (.ok (handleOAuthCallback request config), st2)
  else
    let request := rewriteIndex request
    match loadConfig env st with
    | (.error e, st2, _) => (.error e, st2)
    | (.ok config, st2, _) =>
      match extractToken request config with
      | none => (.ok (redirectToLogin request config), st2)
      | some token =>
        if token = "" then (.ok (redirectToLogin request config), st2)
        else
          match verifyToken env.jwt token config with
          | .ok payload => (.ok (.request (attachAuthEmail request payload)), st2)
          | .error _ => (.ok (redirectToLogin request config), st2)

/-! ## Concrete fixtures

A sample deployment configuration together with oracle environments;
used by witnesses and counterexamples. -/

def sampleConfig : CognitoConfig :=
  { userPoolId := "us-east-1_ABC123"
    clientId := "client123"
    region := "us-east-1"
    cognitoDomainPrefix := "apply-acme"
    appDomain := "apply.example.com" }

/-- Claims of a token issued by the configured pool for the configured
client, unexpired at the sample clock. -/
def goodClaims : JwtPayload :=
  { iss := some (expectedIssuer sampleConfig)
    aud := some "client123"
    exp := some 2000000000
    email := some "user@example.com" }

/-- The structural decoder oracle knows four sample compact tokens:
a fully valid one, a valid one whose payload has no email claim, one
issued by a different user pool, and one whose signature is broken. -/
def sampleDecode : String → Option DecodedJwt := fun t =>
  if t = "tokGood" then
    some { header := { kid := some "k1" }, payload := goodClaims }
  else if t = "tokNoEmail" then
    some { header := { kid := some "k1" }, payload := { goodClaims with email := none } }
  else if t = "tokOtherPool" then
    some { header := { kid := some "k1" }
           payload := { goodClaims with
             iss := some "https://cognito-idp.us-east-1.amazonaws.com/us-east-1_OTHER" } }
  else if t = "tokBadSig" then
    some { header := { kid := some "k1" }, payload := goodClaims }
  else none

def sampleJwt : JwtEnv :=
  { decode := sampleDecode
    getSigningKey := fun kid =>
      if kid = "k1" then .ok "pubkey1" else .error (.keyFetchFailed "kid not in JWKS")
    verifySignature := fun t k =>
      (t == "tokGood" || t == "tokNoEmail" || t == "tokOtherPool") && k == "pubkey1"
    now := 1700000000 }

def sampleEnv : EdgeEnv :=
  { jwt := sampleJwt
    cognitoConfigParam := some "/portal/acme/cognito-config"
    ssmFetch := fun name =>
      if name = "/portal/acme/cognito-config" then .ok (some "cfg-json") else .ok none
    parseConfigJson := fun s =>
      if s = "cfg-json" then .ok sampleConfig else .error (.configParse "unexpected value") }

/-- Environment whose JWKS key fetch fails with a transport error. -/
def envKeyFail : EdgeEnv :=
  { sampleEnv with
      jwt := { sampleJwt with
        getSigningKey := fun _ => .error (.keyFetchFailed "jwks endpoint unreachable") } }

/-- Environment whose parameter-store fetch fails with a transport
error. -/
def envSsmFail : EdgeEnv :=
  { sampleEnv with ssmFetch := fun _ => .error (.ssmTransport "ssm timeout") }

def coldState : WarmState := { cachedConfig := none }

/-- Cookie header carrying the id-token cookie for the sample client. -/
def cookieHeaderFor (token : String) : Headers :=
  [("cookie",
    [{ key := "Cookie"
       value := "CognitoIdentityServiceProvider.client123.idToken=" ++ token }])]

def dashboardRequest : CloudFrontRequest :=
  { uri := "/dashboard", querystring := "", headers := [] }

def errorPageRequest : CloudFrontRequest :=
  { uri := "/error.html", querystring := "", headers := [] }

/-- A request to a protected path carrying the id-token cookie. -/
def tokenRequest (token : String) : CloudFrontRequest :=
  { uri := "/dashboard", querystring := "", headers := cookieHeaderFor token }

/-! ## Helper lemmas on the header map -/

theorem getHeader_setHeader_self (hs : Headers) (n : String) (v : List HeaderEntry) :
    getHeader (setHeader hs n v) n = some v := by
  simp only [getHeader, setHeader]
  split
  · rename_i hany
    induction hs with
    | nil => simp at hany
    | cons p ps ih =>
      rw [List.map_cons]
      by_cases hp : p.1 = n
      · rw [if_pos hp, List.find?_cons_of_pos _ (by simp)]
        rfl
      · rw [if_neg hp, List.find?_cons_of_neg _ (by simp [hp])]
        simp only [List.any_cons, Bool.or_eq_true, decide_eq_true_eq] at hany
        exact ih (hany.resolve_left hp)
  · rename_i hany
    induction hs with
    | nil => simp
    | cons p ps ih =>
      simp only [List.any_cons, Bool.or_eq_true, decide_eq_true_eq, not_or] at hany
      rw [List.cons_append, List.find?_cons_of_neg _ (by simp [hany.1])]
      exact ih hany.2

theorem getHeader_setHeader_ne (hs : Headers) (n m : String) (v : List HeaderEntry)
    (h : ¬ n = m) : getHeader (setHeader hs n v) m = getHeader hs m := by
  simp only [getHeader, setHeader]
  split
  · rename_i hany
    clear hany
    induction hs with
    | nil => rfl
    | cons p ps ih =>
      rw [List.map_cons]
      by_cases hp : p.1 = n
      · rw [if_pos hp, List.find?_cons_of_neg _ (by simp [h]),
          List.find?_cons_of_neg _ (by simp [hp, h])]
        exact ih
      · rw [if_neg hp]
        by_cases hpm : p.1 = m
        · rw [List.find?_cons_of_pos _ (by simp [hpm]),
            List.find?_cons_of_pos _ (by simp [hpm])]
        · rw [List.find?_cons_of_neg _ (by simp [hpm]),
            List.find?_cons_of_neg _ (by simp [hpm])]
          exact ih
  · rename_i hany
    clear hany
    induction hs with
    | nil => simp [h]
    | cons p ps ih =>
      rw [List.cons_append]
      by_cases hpm : p.1 = m
      · rw [List.find?_cons_of_pos _ (by simp [hpm]),
          List.find?_cons_of_pos _ (by simp [hpm])]
      · rw [List.find?_cons_of_neg _ (by simp [hpm]),
          List.find?_cons_of_neg _ (by simp [hpm])]
        exact ih

theorem getHeader_removeHeader_self (hs : Headers) (n : String) :
    getHeader (removeHeader hs n) n = none := by
  simp only [getHeader, removeHeader]
  induction hs with
  | nil => rfl
  | cons p ps ih =>
    rw [List.filter_cons]
    by_cases hp : p.1 = n
    · rw [if_neg (by simp [hp])]
      exact ih
    · rw [if_pos (by simp [hp]), List.find?_cons_of_neg _ (by simp [hp])]
      exact ih

/-- `rewriteIndex` touches only the `uri` field, so it commutes with
replacing the header map. -/
theorem rewriteIndex_headers (r : CloudFrontRequest) (h : Headers) :
    rewriteIndex { r with headers := h } = { rewriteIndex r with headers := h } := by
  simp only [rewriteIndex]
  split <;> rfl

/-- `redirectToLogin` reads only `uri` and `querystring`, never the
header map. -/
theorem redirectToLogin_headers (r : CloudFrontRequest) (h : Headers)
    (c : CognitoConfig) :
    redirectToLogin { r with headers := h } c = redirectToLogin r c := rfl

/-- Replace a request\'s header map, keeping uri and query string. -/
def withHeaders (r : CloudFrontRequest) (h : Headers) : CloudFrontRequest :=
  { uri := r.uri, querystring := r.querystring, headers := h }

/-- The same request with its `cookie` header deleted: the
missing-token variant of a request. -/
def stripCookie (r : CloudFrontRequest) : CloudFrontRequest :=
  withHeaders r (removeHeader r.headers "cookie")

/-- The same request with one header assigned by the caller. -/
def setRequestHeader (r : CloudFrontRequest) (name : String)
    (v : List HeaderEntry) : CloudFrontRequest :=
  withHeaders r (setHeader r.headers name v)

/-- `extractToken` reads only the `cookie` header, so it is `none` on
a cookie-stripped request. -/
theorem extractToken_stripCookie (r : CloudFrontRequest) (c : CognitoConfig) :
    extractToken (stripCookie r) c = none := by
  simp only [extractToken, stripCookie, withHeaders, getHeader_removeHeader_self]
  rfl

/-- Setting a header other than `cookie` does not change the extracted
token. -/
theorem extractToken_set_non_cookie (r : CloudFrontRequest) (c : CognitoConfig)
    (name : String) (v : List HeaderEntry) (h : ¬ name = "cookie") :
    extractToken (setRequestHeader r name v) c = extractToken r c := by
  simp only [extractToken, setRequestHeader, withHeaders,
    getHeader_setHeader_ne _ _ _ _ h]

theorem rewriteIndex_querystring (r : CloudFrontRequest) :
    (rewriteIndex r).querystring = r.querystring := by
  simp only [rewriteIndex]
  split <;> rfl

theorem rewriteIndex_headers_eq (r : CloudFrontRequest) :
    (rewriteIndex r).headers = r.headers := by
  simp only [rewriteIndex]
  split <;> rfl

/-- `rewriteIndex` touches only the `uri` field, so it commutes with
replacing the header map. -/
theorem rewriteIndex_withHeaders (r : CloudFrontRequest) (h : Headers) :
    rewriteIndex (withHeaders r h) = withHeaders (rewriteIndex r) h := by
  simp only [rewriteIndex, withHeaders]
  split <;> rfl

theorem rewriteIndex_stripCookie (r : CloudFrontRequest) :
    rewriteIndex (stripCookie r) = stripCookie (rewriteIndex r) := by
  simp only [stripCookie, rewriteIndex_withHeaders, rewriteIndex_headers_eq]

/-- `redirectToLogin` reads only `uri` and `querystring`, never the
header map. -/
theorem redirectToLogin_withHeaders (r : CloudFrontRequest) (h : Headers)
    (c : CognitoConfig) :
    redirectToLogin (withHeaders r h) c = redirectToLogin r c := rfl

theorem redirectToLogin_stripCookie (r : CloudFrontRequest) (c : CognitoConfig) :
    redirectToLogin (stripCookie r) c = redirectToLogin r c := rfl

/-- On any path other than the error page and the callback, the
handler loads config, rewrites a directory path, extracts the token
and dispatches on verification. -/
theorem handler_protected (env : EdgeEnv) (st : WarmState)
    (request : CloudFrontRequest) (cfg : CognitoConfig) (st2 : WarmState) (n : Nat)
    (h1 : ¬ request.uri = "/error.html") (h2 : ¬ request.uri = "/oauth2/callback")
    (hcfg : loadConfig env st = (.ok cfg, st2, n)) :
    handler env st request =
      (match extractToken (rewriteIndex request) cfg with
       | none => (.ok (redirectToLogin (rewriteIndex request) cfg), st2)
       | some token =>
         if token = "" then (.ok (redirectToLogin (rewriteIndex request) cfg), st2)
         else
           match verifyToken env.jwt token cfg with
           | .ok payload =>
             (.ok (.request (attachAuthEmail (rewriteIndex request) payload)), st2)
           | .error _ =>
             (.ok (redirectToLogin (rewriteIndex request) cfg), st2)) := by
  simp only [handler]
  rw [if_neg h1, if_neg h2, hcfg]

/-! ## Claim C1 -/

/-- **C1 counterexample.**  The claim quantifies over *every* incoming
request, but a request to the fixed public error page with no cookie
header at all is forwarded unchanged, not answered with a 302 login
redirect. -/
theorem C1_counterexample :
    getHeader errorPageRequest.headers "cookie" = none ∧
    (handler sampleEnv coldState errorPageRequest).1 =
      .ok (.request errorPageRequest) :=
  ⟨rfl, rfl⟩

/-- **C1 (amended).**  For every incoming request to a path other than
the fixed public error page and the OAuth callback, when the config
loads and the cookie header is absent or contains no id-token cookie
named from the configured client id, the handler returns a 302 login
redirect response and never returns the (forwarded) request object. -/
theorem C1_no_token_redirects (env : EdgeEnv) (st st2 : WarmState) (n : Nat)
    (request : CloudFrontRequest) (cfg : CognitoConfig)
    (h1 : ¬ request.uri = "/error.html") (h2 : ¬ request.uri = "/oauth2/callback")
    (hcfg : loadConfig env st = (.ok cfg, st2, n))
    (hnotok : extractToken (rewriteIndex request) cfg = none) :
    (handler env st request).1 = .ok (redirectToLogin (rewriteIndex request) cfg) ∧
    ∃ resp, redirectToLogin (rewriteIndex request) cfg = .response resp ∧
      resp.status = "302" := by
  refine ⟨?_, ⟨_, rfl, rfl⟩⟩
  rw [handler_protected env st request cfg st2 n h1 h2 hcfg, hnotok]

/-- Witness for C1 at a concrete cookieless request to `/dashboard`. -/
theorem C1_witness :
    (handler sampleEnv coldState dashboardRequest).1 =
      .ok (redirectToLogin (rewriteIndex dashboardRequest) sampleConfig) ∧
    ∃ resp, redirectToLogin (rewriteIndex dashboardRequest) sampleConfig =
        .response resp ∧ resp.status = "302" :=
  C1_no_token_redirects sampleEnv coldState ⟨some sampleConfig⟩ 1 dashboardRequest
    sampleConfig (by decide) (by decide) rfl rfl

/-! ## Claim C2 -/

/-- **C2.**  A request whose token fails verification for any reason
receives exactly the same login-redirect response as a request with no
token: the handler result equals the redirect for the rewritten
request, and it coincides with the handler result for the identical
request with its cookie header removed. -/
theorem C2_invalid_token_like_missing (env : EdgeEnv) (st st2 : WarmState) (n : Nat)
    (request : CloudFrontRequest) (cfg : CognitoConfig) (token : String) (e : EdgeError)
    (h1 : ¬ request.uri = "/error.html") (h2 : ¬ request.uri = "/oauth2/callback")
    (hcfg : loadConfig env st = (.ok cfg, st2, n))
    (htok : extractToken (rewriteIndex request) cfg = some token)
    (hver : verifyToken env.jwt token cfg = .error e) :
    (handler env st request).1 = .ok (redirectToLogin (rewriteIndex request) cfg) ∧
    (handler env st request).1 =
      (handler env st (stripCookie request)).1 := by
  have hmain : (handler env st request).1 =
      .ok (redirectToLogin (rewriteIndex request) cfg) := by
    rw [handler_protected env st request cfg st2 n h1 h2 hcfg, htok]
    by_cases ht : token = ""
    · simp [ht]
    · simp [ht, hver]
  refine ⟨hmain, ?_⟩
  rw [hmain, handler_protected env st (stripCookie request) cfg st2 n h1 h2 hcfg,
    rewriteIndex_stripCookie, extractToken_stripCookie,
    redirectToLogin_stripCookie]

/-- Witness for C2: a token with a broken signature is redirected like
a missing token. -/
theorem C2_witness :
    (handler sampleEnv coldState (tokenRequest "tokBadSig")).1 =
      .ok (redirectToLogin (rewriteIndex (tokenRequest "tokBadSig")) sampleConfig) ∧
    (handler sampleEnv coldState (tokenRequest "tokBadSig")).1 =
      (handler sampleEnv coldState (stripCookie (tokenRequest "tokBadSig"))).1 :=
  C2_invalid_token_like_missing sampleEnv coldState ⟨some sampleConfig⟩ 1
    (tokenRequest "tokBadSig") sampleConfig "tokBadSig" .signatureInvalid
    (by decide) (by decide) rfl rfl rfl

/-! ## Claim C3 -/

/-- **C3.**  `verifyToken` returns claims only when the decoded
token's issuer equals the issuer URL derived from the loaded config
and its audience equals the configured client id; any decoded token
whose issuer or audience differs is rejected (in particular even when
its signature verifies under some resolved key). -/
theorem C3_issuer_audience_isolation (env : JwtEnv) (token : String)
    (cfg : CognitoConfig) :
    (∀ p, verifyToken env token cfg = .ok p →
      ∃ d, env.decode token = some d ∧ p = d.payload ∧
        d.payload.iss = some (expectedIssuer cfg) ∧
        d.payload.aud = some cfg.clientId) ∧
    (∀ d, env.decode token = some d →
      ¬ (d.payload.iss = some (expectedIssuer cfg) ∧
          d.payload.aud = some cfg.clientId) →
      ∀ p, ¬ verifyToken env token cfg = .ok p) := by
  have hfwd : ∀ p, verifyToken env token cfg = .ok p →
      ∃ d, env.decode token = some d ∧ p = d.payload ∧
        d.payload.iss = some (expectedIssuer cfg) ∧
        d.payload.aud = some cfg.clientId := by
    intro p hp
    simp only [verifyToken, jwtVerify] at hp
    split at hp
    · cases hp
    · rename_i decoded hd1
      split at hp
      · cases hp
      · split at hp
        · cases hp
        · split at hp
          · cases hp
          · rename_i d hd2
            split at hp
            · cases hp
            · split at hp
              · cases hp
              · split at hp
                · cases hp
                · split at hp
                  · cases hp
                  · rename_i haud hiss
                    cases hp
                    exact ⟨d, hd1.trans hd2, rfl, not_not.mp hiss, not_not.mp haud⟩
  refine ⟨hfwd, ?_⟩
  intro d hd hmis p hp
  obtain ⟨d2, hd2, _, hiss, haud⟩ := hfwd p hp
  rw [hd] at hd2
  cases hd2
  exact hmis ⟨hiss, haud⟩

/-- Witness for C3: a well-signed token from a different user pool is
rejected. -/
theorem C3_witness :
    sampleJwt.decode "tokOtherPool" =
      some { header := { kid := some "k1" }
             payload := { goodClaims with
               iss := some "https://cognito-idp.us-east-1.amazonaws.com/us-east-1_OTHER" } } ∧
    ∀ p, ¬ verifyToken sampleJwt "tokOtherPool" sampleConfig = .ok p :=
  ⟨rfl,
   (C3_issuer_audience_isolation sampleJwt "tokOtherPool" sampleConfig).2
     { header := { kid := some "k1" }
       payload := { goodClaims with
         iss := some "https://cognito-idp.us-east-1.amazonaws.com/us-east-1_OTHER" } }
     rfl (by decide)⟩

/-! ## Claim C4 -/

/-- **C4.**  Every callback request whose query string carries a
(truthy) `error` parameter is answered with a 400 HTML response whose
body is the fixed template around the HTML-escaped error code and
HTML-escaped error description. -/
theorem C4_callback_error_escaped (env : EdgeEnv) (st st2 : WarmState) (n : Nat)
    (request : CloudFrontRequest) (cfg : CognitoConfig) (err : String)
    (huri : request.uri = "/oauth2/callback")
    (hcfg : loadConfig env st = (.ok cfg, st2, n))
    (herr : pairsLookup (parseURLSearchParams request.querystring) "error" = some err)
    (hne : ¬ err = "") :
    (handler env st request).1 = .ok (.response
      { status := "400"
        statusDescription := "Bad Request"
        headers := [("content-type",
          [{ key := "Content-Type", value := "text/html; charset=utf-8" }])]
        body := some (callbackErrorBody (escapeHtml err)
          (escapeHtml ((pairsLookup (parseURLSearchParams request.querystring)
            "error_description").getD ""))) }) := by
  simp only [handler]
  rw [if_neg (by rw [huri]; decide), if_pos huri, hcfg]
  simp only [handleOAuthCallback, herr, Option.getD_some]
  rw [if_pos hne]

/-- Callback request reporting `error_description=<script>alert(1)</script>`. -/
def callbackXssRequest : CloudFrontRequest :=
  { uri := "/oauth2/callback"
    querystring := "error=access_denied&error_description=%3Cscript%3Ealert(1)%3C%2Fscript%3E"
    headers := [] }

set_option maxRecDepth 100000 in
/-- Witness for C4: body contains the escaped form and no raw
`<script` run. -/
theorem C4_witness :
    (handler sampleEnv coldState callbackXssRequest).1 = .ok (.response
      { status := "400"
        statusDescription := "Bad Request"
        headers := [("content-type",
          [{ key := "Content-Type", value := "text/html; charset=utf-8" }])]
        body := some (callbackErrorBody (escapeHtml "access_denied")
          (escapeHtml ((pairsLookup (parseURLSearchParams callbackXssRequest.querystring)
            "error_description").getD ""))) }) ∧
    (pairsLookup (parseURLSearchParams callbackXssRequest.querystring)
      "error_description").getD "" = "<script>alert(1)</script>" ∧
    strContains
      (callbackErrorBody (escapeHtml "access_denied")
        (escapeHtml "<script>alert(1)</script>"))
      "&lt;script&gt;alert(1)&lt;/script&gt;" = true ∧
    strContains
      (callbackErrorBody (escapeHtml "access_denied")
        (escapeHtml "<script>alert(1)</script>"))
      "<script" = false :=
  ⟨C4_callback_error_escaped sampleEnv coldState ⟨some sampleConfig⟩ 1
      callbackXssRequest sampleConfig "access_denied" rfl rfl rfl (by decide),
   rfl, rfl, rfl⟩

/-! ## Claim C5 -/

/-- Request to the public error page carrying a caller-forged
`x-auth-email` header. -/
def spoofedErrorPageRequest : CloudFrontRequest :=
  { uri := "/error.html"
    querystring := ""
    headers := [("x-auth-email",
      [{ key := "X-Auth-Email", value := "attacker@evil.example" }])] }

/-- **C5 counterexample.**  The claim quantifies over every forwarded
request, but the error-page passthrough forwards the request untouched,
so a caller-supplied `x-auth-email` header survives into the forwarded
request: the forwarded header is not independent of the caller's
value. -/
theorem C5_counterexample :
    (handler sampleEnv coldState spoofedErrorPageRequest).1 =
      .ok (.request spoofedErrorPageRequest) ∧
    getHeader spoofedErrorPageRequest.headers "x-auth-email" =
      some [{ key := "X-Auth-Email", value := "attacker@evil.example" }] :=
  ⟨rfl, rfl⟩

/-- **C5 (amended).**  For every request forwarded after successful
token verification, the `x-auth-email` header of the forwarded request
is set by the gateway to the verified payload's email (or
`"unknown"`), and presetting any caller-supplied `x-auth-email` value
leaves that forwarded value unchanged. -/
theorem C5_auth_email_overwritten (env : EdgeEnv) (st st2 : WarmState) (n : Nat)
    (request : CloudFrontRequest) (cfg : CognitoConfig) (token : String)
    (payload : JwtPayload)
    (h1 : ¬ request.uri = "/error.html") (h2 : ¬ request.uri = "/oauth2/callback")
    (hcfg : loadConfig env st = (.ok cfg, st2, n))
    (htok : extractToken (rewriteIndex request) cfg = some token)
    (hne : ¬ token = "")
    (hver : verifyToken env.jwt token cfg = .ok payload) :
    ((handler env st request).1 =
        .ok (.request (attachAuthEmail (rewriteIndex request) payload)) ∧
      getHeader (attachAuthEmail (rewriteIndex request) payload).headers
          "x-auth-email" =
        some [{ key := "X-Auth-Email", value := payload.email.getD "unknown" }]) ∧
    ∀ v : List HeaderEntry,
      (handler env st (setRequestHeader request "x-auth-email" v)).1 =
        .ok (.request (attachAuthEmail
          (rewriteIndex (setRequestHeader request "x-auth-email" v)) payload)) ∧
      getHeader (attachAuthEmail
          (rewriteIndex (setRequestHeader request "x-auth-email" v)) payload).headers
          "x-auth-email" =
        some [{ key := "X-Auth-Email", value := payload.email.getD "unknown" }] := by
  constructor
  · constructor
    · rw [handler_protected env st request cfg st2 n h1 h2 hcfg, htok]
      simp [hne, hver]
    · simp only [attachAuthEmail]
      exact getHeader_setHeader_self _ _ _
  · intro v
    have hext : extractToken
        (rewriteIndex (setRequestHeader request "x-auth-email" v)) cfg = some token := by
      rw [setRequestHeader, rewriteIndex_withHeaders, ← rewriteIndex_headers_eq request,
        ← setRequestHeader, extractToken_set_non_cookie _ _ _ _ (by decide)]
      exact htok
    constructor
    · rw [handler_protected env st (setRequestHeader request "x-auth-email" v) cfg
        st2 n h1 h2 hcfg, hext]
      simp [hne, hver]
    · simp only [attachAuthEmail]
      exact getHeader_setHeader_self _ _ _

/-- Witness for C5 at a concrete authenticated request, with the
forged caller header instantiated. -/
theorem C5_witness :
    ((handler sampleEnv coldState (tokenRequest "tokGood")).1 =
        .ok (.request (attachAuthEmail (rewriteIndex (tokenRequest "tokGood"))
          goodClaims)) ∧
      getHeader (attachAuthEmail (rewriteIndex (tokenRequest "tokGood"))
          goodClaims).headers "x-auth-email" =
        some [{ key := "X-Auth-Email", value := goodClaims.email.getD "unknown" }]) ∧
    ((handler sampleEnv coldState (setRequestHeader (tokenRequest "tokGood")
          "x-auth-email" [{ key := "X-Auth-Email", value := "attacker@evil.example" }])).1 =
        .ok (.request (attachAuthEmail
          (rewriteIndex (setRequestHeader (tokenRequest "tokGood") "x-auth-email"
            [{ key := "X-Auth-Email", value := "attacker@evil.example" }])) goodClaims)) ∧
      getHeader (attachAuthEmail
          (rewriteIndex (setRequestHeader (tokenRequest "tokGood") "x-auth-email"
            [{ key := "X-Auth-Email", value := "attacker@evil.example" }])) goodClaims).headers
          "x-auth-email" =
        some [{ key := "X-Auth-Email", value := goodClaims.email.getD "unknown" }]) :=
  ⟨(C5_auth_email_overwritten sampleEnv coldState ⟨some sampleConfig⟩ 1
      (tokenRequest "tokGood") sampleConfig "tokGood" goodClaims
      (by decide) (by decide) rfl rfl (by decide) rfl).1,
   (C5_auth_email_overwritten sampleEnv coldState ⟨some sampleConfig⟩ 1
      (tokenRequest "tokGood") sampleConfig "tokGood" goodClaims
      (by decide) (by decide) rfl rfl (by decide) rfl).2
     [{ key := "X-Auth-Email", value := "attacker@evil.example" }]⟩

/-! ## Claim C6 -/

/-- **C6 counterexample.**  A key-document fetch failure does *not*
propagate out of the handler: the catch around `verifyToken` converts
it into the ordinary 302 login redirect. -/
theorem C6_counterexample :
    (handler envKeyFail coldState (tokenRequest "tokGood")).1 =
      .ok (redirectToLogin (tokenRequest "tokGood") sampleConfig) ∧
    ∃ resp, redirectToLogin (tokenRequest "tokGood") sampleConfig =
        .response resp ∧ resp.status = "302" :=
  ⟨rfl, ⟨_, rfl, rfl⟩⟩

/-- **C6 (amended).**  A config-fetch failure propagates out of the
handler as a thrown error (never a redirect); key-document fetch
failures and all other exceptions thrown during verification are
caught and converted into the login redirect. -/
theorem C6_error_partition :
    (∀ (env : EdgeEnv) (st : WarmState) (request : CloudFrontRequest)
       (e : EdgeError) (st2 : WarmState) (n : Nat),
       ¬ request.uri = "/error.html" →
       loadConfig env st = (.error e, st2, n) →
       (handler env st request).1 = .error e) ∧
    (∀ (env : EdgeEnv) (st st2 : WarmState) (n : Nat)
       (request : CloudFrontRequest) (cfg : CognitoConfig) (token : String)
       (e : EdgeError),
       ¬ request.uri = "/error.html" → ¬ request.uri = "/oauth2/callback" →
       loadConfig env st = (.ok cfg, st2, n) →
       extractToken (rewriteIndex request) cfg = some token →
       verifyToken env.jwt token cfg = .error e →
       (handler env st request).1 =
         .ok (redirectToLogin (rewriteIndex request) cfg)) := by
  constructor
  · intro env st request e st2 n h1 hload
    simp only [handler]
    rw [if_neg h1]
    by_cases h2 : request.uri = "/oauth2/callback"
    · rw [if_pos h2, hload]
    · rw [if_neg h2, hload]
  · intro env st st2 n request cfg token e h1 h2 hcfg htok hver
    rw [handler_protected env st request cfg st2 n h1 h2 hcfg, htok]
    by_cases ht : token = ""
    · simp [ht]
    · simp [ht, hver]

/-- Witness for C6: a parameter-store transport failure surfaces as a
thrown error, while a broken-signature token only yields a redirect. -/
theorem C6_witness :
    (handler envSsmFail coldState dashboardRequest).1 =
      .error (.ssmTransport "ssm timeout") ∧
    (handler sampleEnv coldState (tokenRequest "tokBadSig")).1 =
      .ok (redirectToLogin (rewriteIndex (tokenRequest "tokBadSig")) sampleConfig) :=
  ⟨C6_error_partition.1 envSsmFail coldState dashboardRequest
      (.ssmTransport "ssm timeout") coldState 1 (by decide) rfl,
   C6_error_partition.2 sampleEnv coldState ⟨some sampleConfig⟩ 1
      (tokenRequest "tokBadSig") sampleConfig "tokBadSig" .signatureInvalid
      (by decide) (by decide) rfl rfl rfl⟩

/-! ## Claim C7 -/

/-- The login URL assembled by `redirectToLogin`, up to and excluding
the `state` parameter. -/
def loginUrlPrefix (config : CognitoConfig) : String :=
  "https://" ++ config.cognitoDomainPrefix ++ ".auth." ++ config.region ++
    ".amazoncognito.com/oauth2/authorize" ++
  "?client_id=" ++ config.clientId ++
  "&response_type=token" ++
  "&scope=openid+email+profile" ++
  "&redirect_uri=https://" ++ config.appDomain ++ "/oauth2/callback"

set_option maxRecDepth 100000 in
/-- **C7 counterexample.**  For `/dashboard` with no cookie the
Location's `state` is the percent-encoding of the *full* original URL
(scheme and host included), so the Location does not end with
`state=%2Fdashboard`. -/
theorem C7_counterexample :
    (handler sampleEnv coldState dashboardRequest).1 = .ok (.response
      { status := "302"
        statusDescription := "Found"
        headers := [("location", [{ key := "Location", value :=
            "https://apply-acme.auth.us-east-1.amazoncognito.com/oauth2/authorize?client_id=client123&response_type=token&scope=openid+email+profile&redirect_uri=https://apply.example.com/oauth2/callback&state=https%3A%2F%2Fapply.example.com%2Fdashboard" }]),
          ("cache-control", [{ key := "Cache-Control", value := "no-store" }])]
        body := none }) ∧
    strEndsWith
      "https://apply-acme.auth.us-east-1.amazoncognito.com/oauth2/authorize?client_id=client123&response_type=token&scope=openid+email+profile&redirect_uri=https://apply.example.com/oauth2/callback&state=https%3A%2F%2Fapply.example.com%2Fdashboard"
      "state=%2Fdashboard" = false :=
  ⟨rfl, rfl⟩

/-- **C7 (amended).**  The login redirect's Location carries a `state`
query parameter equal to the percent-encoding of the full original
request URL: `https://` + the configured app domain + the (rewritten)
path + the query string when non-empty. -/
theorem C7_state_is_full_original_url (env : EdgeEnv) (st st2 : WarmState)
    (n : Nat) (request : CloudFrontRequest) (cfg : CognitoConfig)
    (h1 : ¬ request.uri = "/error.html") (h2 : ¬ request.uri = "/oauth2/callback")
    (hcfg : loadConfig env st = (.ok cfg, st2, n))
    (hnotok : extractToken (rewriteIndex request) cfg = none) :
    (handler env st request).1 = .ok (.response
      { status := "302"
        statusDescription := "Found"
        headers := [("location", [{ key := "Location", value :=
            (loginUrlPrefix cfg ++ "&state=" ++ encodeURIComponent
              ("https://" ++ cfg.appDomain ++ (rewriteIndex request).uri ++
                (if ¬ request.querystring = "" then "?" ++ request.querystring
                 else ""))) }]),
          ("cache-control", [{ key := "Cache-Control", value := "no-store" }])]
        body := none }) := by
  rw [handler_protected env st request cfg st2 n h1 h2 hcfg, hnotok]
  simp only [redirectToLogin, loginUrlPrefix, rewriteIndex_querystring]

set_option maxRecDepth 100000 in
/-- Witness for C7 at the concrete cookieless `/dashboard` request. -/
theorem C7_witness :
    (handler sampleEnv coldState dashboardRequest).1 = .ok (.response
      { status := "302"
        statusDescription := "Found"
        headers := [("location", [{ key := "Location", value :=
            (loginUrlPrefix sampleConfig ++ "&state=" ++ encodeURIComponent
              ("https://" ++ sampleConfig.appDomain ++
                (rewriteIndex dashboardRequest).uri ++
                (if ¬ dashboardRequest.querystring = "" then
                  "?" ++ dashboardRequest.querystring else ""))) }]),
          ("cache-control", [{ key := "Cache-Control", value := "no-store" }])]
        body := none }) ∧
    strEndsWith
      (loginUrlPrefix sampleConfig ++ "&state=" ++ encodeURIComponent
        ("https://" ++ sampleConfig.appDomain ++
          (rewriteIndex dashboardRequest).uri ++
          (if ¬ dashboardRequest.querystring = "" then
            "?" ++ dashboardRequest.querystring else "")))
      "state=https%3A%2F%2Fapply.example.com%2Fdashboard" = true :=
  ⟨C7_state_is_full_original_url sampleEnv coldState ⟨some sampleConfig⟩ 1
      dashboardRequest sampleConfig (by decide) (by decide) rfl rfl,
   rfl⟩

/-! ## Claim C8 -/

/-- **C8.**  The fixed public error page is forwarded as the identical
request object (all fields unchanged) for every cookie state, and the
callback path always yields a synthesized 200-or-400 response, never a
login redirect. -/
theorem C8_passthrough_and_callback :
    (∀ (env : EdgeEnv) (st : WarmState) (request : CloudFrontRequest),
       request.uri = "/error.html" →
       handler env st request = (.ok (.request request), st)) ∧
    (∀ (env : EdgeEnv) (st st2 : WarmState) (n : Nat)
       (request : CloudFrontRequest) (cfg : CognitoConfig),
       request.uri = "/oauth2/callback" →
       loadConfig env st = (.ok cfg, st2, n) →
       ∃ resp, (handler env st request).1 = .ok (.response resp) ∧
         (resp.status = "200" ∨ resp.status = "400")) := by
  constructor
  · intro env st request h
    simp only [handler]
    rw [if_pos h]
  · intro env st st2 n request cfg huri hload
    simp only [handler]
    rw [if_neg (by rw [huri]; decide), if_pos huri, hload]
    simp only [handleOAuthCallback]
    by_cases herr :
        ((pairsLookup (parseURLSearchParams request.querystring) "error").getD "") = ""
    · rw [if_neg (not_not_intro herr)]
      exact ⟨_, rfl, Or.inl rfl⟩
    · rw [if_pos herr]
      exact ⟨_, rfl, Or.inr rfl⟩

/-- Callback request with no identity-provider error reported. -/
def callbackPlainRequest : CloudFrontRequest :=
  { uri := "/oauth2/callback", querystring := "", headers := [] }

/-- Witness for C8: the concrete error page is forwarded unchanged
and a concrete callback request is answered with a synthesized
response. -/
theorem C8_witness :
    handler sampleEnv coldState errorPageRequest =
      (.ok (.request errorPageRequest), coldState) ∧
    ∃ resp, (handler sampleEnv coldState callbackPlainRequest).1 =
      .ok (.response resp) ∧ (resp.status = "200" ∨ resp.status = "400") :=
  ⟨C8_passthrough_and_callback.1 sampleEnv coldState errorPageRequest rfl,
   C8_passthrough_and_callback.2 sampleEnv coldState ⟨some sampleConfig⟩ 1
     callbackPlainRequest sampleConfig rfl rfl⟩

/-! ## Claim C9 -/

/-- **C9.**  After one successful load, the config is cached: every
further call in the same warm state returns the identical config with
the state unchanged and performs no remote fetch (whatever the new
environment's oracles would answer); a cold state with the parameter
name configured performs exactly one remote fetch. -/
theorem C9_config_cache :
    (∀ (env : EdgeEnv) (st : WarmState) (c : CognitoConfig) (st2 : WarmState)
       (n : Nat),
       loadConfig env st = (.ok c, st2, n) →
       st2.cachedConfig = some c ∧
       ∀ env2 : EdgeEnv, loadConfig env2 st2 = (.ok c, st2, 0)) ∧
    (∀ (env : EdgeEnv) (st : WarmState) (p : String),
       st.cachedConfig = none → env.cognitoConfigParam = some p → ¬ p = "" →
       (loadConfig env st).2.2 = 1) := by
  constructor
  · intro env st c st2 n h
    unfold loadConfig at h
    split at h
    · rename_i c0 heq
      simp only [Prod.mk.injEq, Except.ok.injEq] at h
      obtain ⟨hcc, hst, -⟩ := h
      subst hcc
      subst hst
      exact ⟨heq, fun env2 => by simp [loadConfig, heq]⟩
    · split at h
      · simp at h
      · split at h
        · simp at h
        · split at h
          · simp at h
          · simp at h
          · split at h
            · simp at h
            · split at h
              · simp at h
              · simp only [Prod.mk.injEq, Except.ok.injEq] at h
                obtain ⟨hcc, hst, -⟩ := h
                subst hcc
                constructor
                · rw [← hst]
                · intro env2
                  rw [← hst]
                  simp [loadConfig]
  · intro env st p hcold hparam hne
    simp only [loadConfig, hcold, hparam]
    rw [if_neg hne]
    cases hf : env.ssmFetch p with
    | error e => rfl
    | ok v =>
      cases v with
      | none => rfl
      | some value =>
        dsimp only
        by_cases hv : value = ""
        · rw [if_pos hv]
        · rw [if_neg hv]
          cases env.parseConfigJson value <;> rfl

/-- Witness for C9: the cold call fetches once; afterwards even an
environment whose parameter store is unreachable returns the cached
config with no fetch. -/
theorem C9_witness :
    loadConfig envSsmFail ⟨some sampleConfig⟩ =
      (.ok sampleConfig, ⟨some sampleConfig⟩, 0) ∧
    (loadConfig sampleEnv coldState).2.2 = 1 :=
  ⟨(C9_config_cache.1 sampleEnv coldState sampleConfig ⟨some sampleConfig⟩ 1
      rfl).2 envSsmFail,
   C9_config_cache.2 sampleEnv coldState "/portal/acme/cognito-config" rfl rfl
     (by decide)⟩

/-! ## Claim C10 -/

/-- **C10.**  A token that verifies but whose payload has no email
claim is still forwarded, with the `X-Auth-Email` header set to the
literal `"unknown"`. -/
theorem C10_missing_email_unknown (env : EdgeEnv) (st st2 : WarmState) (n : Nat)
    (request : CloudFrontRequest) (cfg : CognitoConfig) (token : String)
    (payload : JwtPayload)
    (h1 : ¬ request.uri = "/error.html") (h2 : ¬ request.uri = "/oauth2/callback")
    (hcfg : loadConfig env st = (.ok cfg, st2, n))
    (htok : extractToken (rewriteIndex request) cfg = some token)
    (hne : ¬ token = "")
    (hver : verifyToken env.jwt token cfg = .ok payload)
    (hmail : payload.email = none) :
    (handler env st request).1 =
      .ok (.request (attachAuthEmail (rewriteIndex request) payload)) ∧
    getHeader (attachAuthEmail (rewriteIndex request) payload).headers
        "x-auth-email" =
      some [{ key := "X-Auth-Email", value := "unknown" }] := by
  constructor
  · rw [handler_protected env st request cfg st2 n h1 h2 hcfg, htok]
    simp [hne, hver]
  · simp only [attachAuthEmail, hmail, Option.getD_none]
    exact getHeader_setHeader_self _ _ _

/-- Witness for C10 at the concrete email-less token. -/
theorem C10_witness :
    (handler sampleEnv coldState (tokenRequest "tokNoEmail")).1 =
      .ok (.request (attachAuthEmail (rewriteIndex (tokenRequest "tokNoEmail"))
        { goodClaims with email := none })) ∧
    getHeader (attachAuthEmail (rewriteIndex (tokenRequest "tokNoEmail"))
        { goodClaims with email := none }).headers "x-auth-email" =
      some [{ key := "X-Auth-Email", value := "unknown" }] :=
  C10_missing_email_unknown sampleEnv coldState ⟨some sampleConfig⟩ 1
    (tokenRequest "tokNoEmail") sampleConfig "tokNoEmail"
    { goodClaims with email := none }
    (by decide) (by decide) rfl rfl (by decide) rfl rfl

end EdgeAuth
